import Mathlib

set_option maxRecDepth 100000

/-!
Shallow embedding of `src/client.py`, a sequential HTTP API client script.

The script issues HTTP calls through a `requests.Session`; the remote server
is modelled as an oracle `Nat → RawResp` giving, for the `i`-th request
issued, either a network error, a non-JSON body, or a decoded JSON value.
The observable behaviour of a run is the list of requests issued, the list
of printed values, and the final outcome (normal return or an unhandled
Python fault: network error, JSON decode error, key lookup error, type
error from string concatenation, or assertion failure).
-/

/- Decoded JSON values, mirroring what Python's `json.loads` produces.
`JsonList` and `JsonFields` are the element lists of arrays and objects,
spelled out as mutual inductives so that equality is derivable. -/
mutual

inductive Json : Type where
  | null : Json
  | bool : Bool → Json
  | num : Int → Json
  | str : String → Json
  | arr : JsonList → Json
  | obj : JsonFields → Json
deriving DecidableEq, Repr

inductive JsonList : Type where
  | nil : JsonList
  | cons : Json → JsonList → JsonList
deriving DecidableEq, Repr

inductive JsonFields : Type where
  | nil : JsonFields
  | cons : String → Json → JsonFields → JsonFields
deriving DecidableEq, Repr

end

/-- Build an object field list from an ordinary Lean list (literals). -/
def JsonFields.ofList : List (String × Json) → JsonFields
  | [] => .nil
  | (k, v) :: rest => .cons k v (JsonFields.ofList rest)

/-- Lookup of a key in the field list of a JSON object (Python `d[k]`). -/
def lookupField : JsonFields → String → Option Json
  | .nil, _ => none
  | .cons k v rest, key => if k = key then some v else lookupField rest key

/-- Python subscript `res[k]`: succeeds only on objects holding the key. -/
def Json.get? : Json → String → Option Json
  | .obj fs, key => lookupField fs key
  | _, _ => none

/-- Python truthiness of a decoded JSON value (`if res['success']:`). -/
def Json.truthy : Json → Bool
  | .null => false
  | .bool b => b
  | .num n => n != 0
  | .str s => s != ""
  | .arr .nil => false
  | .arr (.cons _ _) => true
  | .obj .nil => false
  | .obj (.cons _ _ _) => true

/-- Unhandled Python faults that terminate the script. -/
inductive Fault : Type where
  | netError : Fault
  | jsonError : Fault
  | keyError : String → Fault
  | typeError : Fault
  | assertionError : Fault
deriving DecidableEq, Repr

/-- The payload attached to a POST request. -/
inductive Payload : Type where
  | empty : Payload
  | jsonBody : Json → Payload
  | multipart : String → String → String → Payload
deriving DecidableEq, Repr

/-- An HTTP request issued by the client: method, full URL, payload. -/
inductive HttpRequest : Type where
  | post : String → Payload → HttpRequest
  | get : String → HttpRequest
deriving DecidableEq, Repr

/-- What the environment returns for one HTTP request. -/
inductive RawResp : Type where
  | netError : RawResp
  | badJson : RawResp
  | json : Json → RawResp
deriving DecidableEq, Repr

/-- The observable client state threaded through the run: how many requests
were issued so far, the requests in order, and the printed values in order. -/
structure ClientState : Type where
  reqCount : Nat
  requests : List HttpRequest
  printed : List Json
deriving DecidableEq, Repr

def initState : ClientState := ⟨0, [], []⟩

/-- `print(v)` appends the value to the output trace. -/
def doPrint (v : Json) (st : ClientState) : ClientState :=
  { st with printed := st.printed ++ [v] }

/-- Issue one HTTP request and decode the response with `json.loads`:
the request is recorded, then the oracle's answer for this request index
either faults (network error / JSON decode error) or yields a JSON value. -/
def doRequest (oracle : Nat → RawResp) (req : HttpRequest) (st : ClientState) :
    Except Fault Json × ClientState :=
  let st2 : ClientState :=
    { st with reqCount := st.reqCount + 1, requests := st.requests ++ [req] }
  match oracle st.reqCount with
  | .netError => (.error .netError, st2)
  | .badJson => (.error .jsonError, st2)
  | .json j => (.ok j, st2)

/-- Python `res[k]` as a fallible step: missing key (or non-object) faults. -/
def getKey (res : Json) (k : String) : Except Fault Json :=
  match res.get? k with
  | none => .error (.keyError k)
  | some v => .ok v

/-- `base_url = 'http://localhost:3000/api/v1'` from the source. -/
def base_url : String := "http://localhost:3000/api/v1"

/-- `login(sess, creds)`: POST the credentials as JSON to `/login`, print
`res['msg']`, return `res['success']`. -/
def login (oracle : Nat → RawResp) (creds : Json) (st : ClientState) :
    Except Fault Json × ClientState :=
  match doRequest oracle (.post (base_url ++ "/login") (.jsonBody creds)) st with
  | (.error f, st1) => (.error f, st1)
  | (.ok res, st1) =>
    match getKey res "msg" with
    | .error f => (.error f, st1)
    | .ok m =>
      match getKey res "success" with
      | .error f => (.error f, doPrint m st1)
      | .ok s => (.ok s, doPrint m st1)

/-- `checksess(sess)`: GET `/checksess`; if `res['success']` is truthy print
the logged-in banner with `res['body']['name']` (string concatenation, so a
non-string name raises a type error), else print the not-logged-in line;
return `res['success']`. -/
def checksess (oracle : Nat → RawResp) (st : ClientState) :
    Except Fault Json × ClientState :=
  match doRequest oracle (.get (base_url ++ "/checksess")) st with
  | (.error f, st1) => (.error f, st1)
  | (.ok res, st1) =>
    match getKey res "success" with
    | .error f => (.error f, st1)
    | .ok s =>
      if s.truthy then
        match getKey res "body" with
        | .error f => (.error f, st1)
        | .ok body =>
          match getKey body "name" with
          | .error f => (.error f, st1)
          | .ok name =>
            match name with
            | .str n => (.ok s, doPrint (.str ("You are logged in as: " ++ n)) st1)
            | _ => (.error .typeError, st1)
      else
        (.ok s, doPrint (.str ("You are " ++ "not logged in" ++ ".")) st1)

/-- `logout(sess)`: POST to `/logout` with no body and print `res['msg']`;
nothing else of the response is inspected. -/
def logout (oracle : Nat → RawResp) (st : ClientState) :
    Except Fault Unit × ClientState :=
  match doRequest oracle (.post (base_url ++ "/logout") .empty) st with
  | (.error f, st1) => (.error f, st1)
  | (.ok res, st1) =>
    match getKey res "msg" with
    | .error f => (.error f, st1)
    | .ok m => (.ok (), doPrint m st1)

/-- `upload(sess, data, fname)`: POST a multipart form whose field `file`
carries the filename and content to `/upload`, print `res['msg']` and then
`res['body']['name']`. -/
def upload (oracle : Nat → RawResp) (data fname : String) (st : ClientState) :
    Except Fault Unit × ClientState :=
  match doRequest oracle (.post (base_url ++ "/upload") (.multipart "file" fname data)) st with
  | (.error f, st1) => (.error f, st1)
  | (.ok res, st1) =>
    match getKey res "msg" with
    | .error f => (.error f, st1)
    | .ok m =>
      let st2 := doPrint m st1
      match getKey res "body" with
      | .error f => (.error f, st2)
      | .ok body =>
        match getKey body "name" with
        | .error f => (.error f, st2)
        | .ok name => (.ok (), doPrint name st2)

/- SHA-256, modelling `hashlib.sha256(...).hexdigest()` from the source.
Words are `Nat` values kept below `2 ^ 32` by explicit reduction. -/

/-- The word modulus `2 ^ 32` for SHA-256 arithmetic. -/
def M32 : Nat := 4294967296

/-- 32-bit modular addition. -/
def add32 (a b : Nat) : Nat := (a + b) % M32

/-- 32-bit right rotation by `n` of a word `x < 2 ^ 32`. -/
def rotr32 (n x : Nat) : Nat := ((x >>> n) ||| (x <<< (32 - n))) % M32

/-- SHA-256 big sigma 0. -/
def bsig0 (x : Nat) : Nat := (rotr32 2 x) ^^^ (rotr32 13 x) ^^^ (rotr32 22 x)

/-- SHA-256 big sigma 1. -/
def bsig1 (x : Nat) : Nat := (rotr32 6 x) ^^^ (rotr32 11 x) ^^^ (rotr32 25 x)

/-- SHA-256 small sigma 0. -/
def ssig0 (x : Nat) : Nat := (rotr32 7 x) ^^^ (rotr32 18 x) ^^^ (x >>> 3)

/-- SHA-256 small sigma 1. -/
def ssig1 (x : Nat) : Nat := (rotr32 17 x) ^^^ (rotr32 19 x) ^^^ (x >>> 10)

/-- SHA-256 choice function; complement is within 32 bits. -/
def chFn (x y z : Nat) : Nat := (x &&& y) ^^^ ((x ^^^ 4294967295) &&& z)

/-- SHA-256 majority function. -/
def majFn (x y z : Nat) : Nat := (x &&& y) ^^^ (x &&& z) ^^^ (y &&& z)

/-- The 64 SHA-256 round constants. -/
def roundK : List Nat :=
  [1116352408, 1899447441, 3049323471, 3921009573, 961987163,
   1508970993, 2453635748, 2870763221, 3624381080, 310598401,
   607225278, 1426881987, 1925078388, 2162078206, 2614888103,
   3248222580, 3835390401, 4022224774, 264347078, 604807628,
   770255983, 1249150122, 1555081692, 1996064986, 2554220882,
   2821834349, 2952996808, 3210313671, 3336571891, 3584528711,
   113926993, 338241895, 666307205, 773529912, 1294757372,
   1396182291, 1695183700, 1986661051, 2177026350, 2456956037,
   2730485921, 2820302411, 3259730800, 3345764771, 3516065817,
   3600352804, 4094571909, 275423344, 430227734, 506948616,
   659060556, 883997877, 958139571, 1322822218, 1537002063,
   1747873779, 1955562222, 2024104815, 2227730452, 2361852424,
   2428436474, 2756734187, 3204031479, 3329325298]

/-- The SHA-256 initial hash state. -/
def initH : List Nat :=
  [1779033703, 3144134277, 1013904242, 2773480762, 1359893119,
   2600822924, 528734635, 1541459225]

/-- SHA-256 padding: append `0x80`, zero bytes up to 56 mod 64, then the
bit length as eight big-endian bytes. -/
def sha256pad (msg : List Nat) : List Nat :=
  let len := msg.length
  let zeros := (119 - len % 64) % 64
  let bits := len * 8
  msg ++ [128] ++ List.replicate zeros 0 ++
    [(bits >>> 56) % 256, (bits >>> 48) % 256, (bits >>> 40) % 256, (bits >>> 32) % 256,
     (bits >>> 24) % 256, (bits >>> 16) % 256, (bits >>> 8) % 256, bits % 256]

/-- Group bytes into 32-bit big-endian words. -/
def bytesToWords : List Nat → List Nat
  | a :: b :: c :: d :: rest => (((a * 256 + b) * 256 + c) * 256 + d) :: bytesToWords rest
  | _ => []

/-- Split the padded byte list into 64-byte blocks: structural worker
carrying the current block in reverse. -/
def toBlocksAux : List Nat → List Nat → List (List Nat)
  | [], acc => if acc.isEmpty then [] else [acc.reverse]
  | b :: rest, acc =>
    if acc.length = 63 then ((b :: acc).reverse) :: toBlocksAux rest []
    else toBlocksAux rest (b :: acc)

/-- Split the padded byte list into 64-byte blocks. -/
def toBlocks (l : List Nat) : List (List Nat) := toBlocksAux l []

/-- Extend the 16 message words by `k` further schedule words. -/
def buildW : List Nat → Nat → List Nat
  | w, 0 => w
  | w, k + 1 =>
    let i := w.length
    let nw := add32 (add32 (ssig1 (w.getD (i - 2) 0)) (w.getD (i - 7) 0))
                    (add32 (ssig0 (w.getD (i - 15) 0)) (w.getD (i - 16) 0))
    buildW (w ++ [nw]) k

/-- One SHA-256 compression round on the 8-word working state. -/
def compressRound (w : List Nat) (i : Nat) (s : List Nat) : List Nat :=
  match s with
  | [a, b, c, d, e, f, g, h] =>
    let t1 := add32 (add32 (add32 h (bsig1 e)) (add32 (chFn e f g) (roundK.getD i 0)))
                    (w.getD i 0)
    let t2 := add32 (bsig0 a) (majFn a b c)
    [add32 t1 t2, a, b, c, add32 d t1, e, f, g]
  | other => other

/-- Run `fuel` compression rounds starting at round index `i`. -/
def compressFrom (w : List Nat) (i : Nat) (fuel : Nat) (s : List Nat) : List Nat :=
  match fuel with
  | 0 => s
  | fuel + 1 => compressFrom w (i + 1) fuel (compressRound w i s)

/-- Process one 64-byte block: schedule, 64 rounds, add to the hash state. -/
def processBlock (h : List Nat) (block : List Nat) : List Nat :=
  let w := buildW (bytesToWords block) 48
  List.zipWith add32 h (compressFrom w 0 64 h)

/-- One lowercase hex digit. -/
def hexDigit (n : Nat) : Char := if n < 10 then Char.ofNat (48 + n) else Char.ofNat (87 + n)

/-- A 32-bit word as 8 lowercase hex digits, big-endian. -/
def word2hex (w : Nat) : String :=
  String.mk [hexDigit ((w >>> 28) % 16), hexDigit ((w >>> 24) % 16), hexDigit ((w >>> 20) % 16),
    hexDigit ((w >>> 16) % 16), hexDigit ((w >>> 12) % 16), hexDigit ((w >>> 8) % 16),
    hexDigit ((w >>> 4) % 16), hexDigit (w % 16)]

/-- `hashlib.sha256(s).hexdigest()` for an ASCII string `s`. -/
def sha256hex (s : String) : String :=
  String.join (((toBlocks (sha256pad (s.data.map Char.toNat))).foldl processBlock initH).map word2hex)

/-- `emp_creds` from the source: the fixed credentials object, whose
password is the hex SHA-256 digest of the plaintext `"password"`. -/
def emp_creds : Json :=
  .obj (.ofList [("email", .str "adowley0@myspace.com"),
                 ("password", .str (sha256hex "password"))])

/-- The request `login` issues. -/
def reqLogin (creds : Json) : HttpRequest := .post (base_url ++ "/login") (.jsonBody creds)

/-- The request `checksess` issues. -/
def reqChecksess : HttpRequest := .get (base_url ++ "/checksess")

/-- The request `logout` issues. -/
def reqLogout : HttpRequest := .post (base_url ++ "/logout") .empty

/-- The request `upload` issues. -/
def reqUpload (data fname : String) : HttpRequest :=
  .post (base_url ++ "/upload") (.multipart "file" fname data)

/-- The content `main` passes to `upload`. -/
def uploadData : String := "hello!"

/-- The filename `main` passes to `upload` (special characters included). -/
def uploadFname : String := "/hey/h2@!#$%^%$#34535645647*&^(&*68elloword;\x27F:\"S\""

/-- Python `assert expr`: AssertionError when the value is not truthy. -/
def pyAssertTrue (v : Json) (st : ClientState) : Except Fault Unit × ClientState :=
  if v.truthy then (.ok (), st) else (.error .assertionError, st)

/-- Python `assert not expr`: AssertionError when the value is truthy. -/
def pyAssertNot (v : Json) (st : ClientState) : Except Fault Unit × ClientState :=
  if v.truthy then (.error .assertionError, st) else (.ok (), st)

/-- `main()` from the source (named `mainRun` since `main` is reserved in Lean): login (assert success), checksess (assert
success), upload, logout, checksess (assert failure). Any fault of a step
propagates, aborting the remaining steps. -/
def mainRun (oracle : Nat → RawResp) : Except Fault Unit × ClientState :=
  match login oracle emp_creds initState with
  | (.error f, st1) => (.error f, st1)
  | (.ok v1, st1) =>
    match pyAssertTrue v1 st1 with
    | (.error f, st2) => (.error f, st2)
    | (.ok _, st2) =>
      match checksess oracle st2 with
      | (.error f, st3) => (.error f, st3)
      | (.ok v2, st3) =>
        match pyAssertTrue v2 st3 with
        | (.error f, st4) => (.error f, st4)
        | (.ok _, st4) =>
          match upload oracle uploadData uploadFname st4 with
          | (.error f, st5) => (.error f, st5)
          | (.ok _, st5) =>
            match logout oracle st5 with
            | (.error f, st6) => (.error f, st6)
            | (.ok _, st6) =>
              match checksess oracle st6 with
              | (.error f, st7) => (.error f, st7)
              | (.ok v3, st7) => pyAssertNot v3 st7

/-- The five requests a complete run of `mainRun` issues, in order. -/
def mainRequests : List HttpRequest :=
  [reqLogin emp_creds, reqChecksess, reqUpload uploadData uploadFname,
   reqLogout, reqChecksess]

/- Concrete server responses used to instantiate the theorems. -/

/-- A successful `/login` response. -/
def loginRespOk : Json := .obj (.ofList [("success", .bool true), ("msg", .str "Welcome back")])

/-- A failed `/login` response. -/
def loginRespNo : Json := .obj (.ofList [("success", .bool false), ("msg", .str "Bad password")])

/-- A successful `/checksess` response carrying the principal's name. -/
def sessRespOk : Json :=
  .obj (.ofList [("success", .bool true), ("msg", .str "session ok"),
                 ("body", .obj (.ofList [("name", .str "Alice")]))])

/-- A failed `/checksess` response. -/
def sessRespNo : Json := .obj (.ofList [("success", .bool false), ("msg", .str "no session")])

/-- A successful `/upload` response carrying the stored artifact name. -/
def uploadRespOk : Json :=
  .obj (.ofList [("success", .bool true), ("msg", .str "uploaded"),
                 ("body", .obj (.ofList [("name", .str "file123.bin")]))])

/-- A failed `/upload` response with no `body` mapping. -/
def uploadRespNo : Json := .obj (.ofList [("success", .bool false), ("msg", .str "upload denied")])

/-- A successful `/logout` response. -/
def logoutRespOk : Json := .obj (.ofList [("success", .bool true), ("msg", .str "bye")])

/-- An oracle under which the whole script succeeds. -/
def oracleGood : Nat → RawResp
  | 0 => .json loginRespOk
  | 1 => .json sessRespOk
  | 2 => .json uploadRespOk
  | 3 => .json logoutRespOk
  | _ => .json sessRespNo

/-- An oracle whose `/login` response reports failure. -/
def oracleBadLogin : Nat → RawResp
  | 0 => .json loginRespNo
  | _ => .json sessRespNo

/-- An oracle that always fails at the network level. -/
def oracleNetDown : Nat → RawResp := fun _ => .netError

/-- An oracle that always answers with a non-JSON body. -/
def oracleBadBody : Nat → RawResp := fun _ => .badJson

/-- A `/logout` response whose success flag is false. -/
def logoutRespFail : Json := .obj (.ofList [("success", .bool false), ("msg", .str "bye")])

/-- An `/upload` response whose body mapping lacks a `name` key. -/
def uploadRespNoName : Json :=
  .obj (.ofList [("success", .bool true), ("msg", .str "stored"),
                 ("body", .obj (.ofList [("id", .num 7)]))])

/-- An oracle that always reports an authenticated session for Alice. -/
def oracleSess : Nat → RawResp := fun _ => .json sessRespOk

/-- An oracle that always reports no session. -/
def oracleLoggedOut : Nat → RawResp := fun _ => .json sessRespNo

/-- An oracle that always accepts uploads. -/
def oracleUpload : Nat → RawResp := fun _ => .json uploadRespOk

/-- An oracle whose logout responses report failure. -/
def oracleLogoutFail : Nat → RawResp := fun _ => .json logoutRespFail

/-- An oracle that always denies uploads with a body-less response. -/
def oracleUploadNo : Nat → RawResp := fun _ => .json uploadRespNo

/-- An oracle whose upload responses carry a body without a name. -/
def oracleUploadNoName : Nat → RawResp := fun _ => .json uploadRespNoName

/-- `oracleGood` on the five consulted indices, garbage beyond them. -/
def oracleGoodTail : Nat → RawResp := fun i => if i < 5 then oracleGood i else .netError

/- Helper lemmas: forward equations, unconditional trace shape, inversions
and oracle-congruence for each operation. -/

theorem login_spec (o : Nat → RawResp) (creds : Json) (st : ClientState) (res m s : Json)
    (ho : o st.reqCount = .json res) (hm : res.get? "msg" = some m)
    (hs : res.get? "success" = some s) :
    login o creds st = (.ok s,
      { st with reqCount := st.reqCount + 1,
                requests := st.requests ++ [reqLogin creds],
                printed := st.printed ++ [m] }) := by
  simp [login, doRequest, getKey, doPrint, reqLogin, ho, hm, hs]

theorem login_trace (o : Nat → RawResp) (creds : Json) (st : ClientState) :
    (login o creds st).2.reqCount = st.reqCount + 1 ∧
    (login o creds st).2.requests = st.requests ++ [reqLogin creds] ∧
    ∃ extra, (login o creds st).2.printed = st.printed ++ extra := by
  unfold login doRequest
  cases ho : o st.reqCount <;> simp [getKey, doPrint, reqLogin]
  case json res =>
    cases hm : res.get? "msg" <;> simp
    case some m =>
      cases hs : res.get? "success" <;> simp

theorem login_ok_inv (o : Nat → RawResp) (creds : Json) (st : ClientState) (s : Json)
    (st2 : ClientState) (h : login o creds st = (.ok s, st2)) :
    ∃ res m, o st.reqCount = .json res ∧ res.get? "msg" = some m ∧
      res.get? "success" = some s ∧
      st2 = { st with reqCount := st.reqCount + 1,
                      requests := st.requests ++ [reqLogin creds],
                      printed := st.printed ++ [m] } := by
  unfold login doRequest at h
  cases ho : o st.reqCount <;> rw [ho] at h <;> simp [getKey] at h
  case json res =>
    cases hm : res.get? "msg" <;> rw [hm] at h <;> simp at h
    case some m =>
      cases hs : res.get? "success" <;> rw [hs] at h <;> simp [doPrint] at h
      case some s2 =>
        obtain ⟨rfl, hst⟩ := h
        exact ⟨res, m, rfl, hm, hs, by rw [← hst]; simp [reqLogin]⟩

theorem login_congr (o1 o2 : Nat → RawResp) (creds : Json) (st : ClientState)
    (h : o1 st.reqCount = o2 st.reqCount) : login o1 creds st = login o2 creds st := by
  unfold login doRequest
  rw [h]

theorem checksess_spec_ok (o : Nat → RawResp) (st : ClientState) (res s body : Json) (n : String)
    (ho : o st.reqCount = .json res) (hs : res.get? "success" = some s)
    (hts : s.truthy = true) (hb : res.get? "body" = some body)
    (hn : body.get? "name" = some (.str n)) :
    checksess o st = (.ok s,
      { st with reqCount := st.reqCount + 1,
                requests := st.requests ++ [reqChecksess],
                printed := st.printed ++ [.str ("You are logged in as: " ++ n)] }) := by
  simp [checksess, doRequest, getKey, doPrint, reqChecksess, ho, hs, hts, hb, hn]

theorem checksess_spec_no (o : Nat → RawResp) (st : ClientState) (res s : Json)
    (ho : o st.reqCount = .json res) (hs : res.get? "success" = some s)
    (hts : s.truthy = false) :
    checksess o st = (.ok s,
      { st with reqCount := st.reqCount + 1,
                requests := st.requests ++ [reqChecksess],
                printed := st.printed ++ [.str ("You are " ++ "not logged in" ++ ".")] }) := by
  simp [checksess, doRequest, getKey, doPrint, reqChecksess, ho, hs, hts]

theorem checksess_trace (o : Nat → RawResp) (st : ClientState) :
    (checksess o st).2.reqCount = st.reqCount + 1 ∧
    (checksess o st).2.requests = st.requests ++ [reqChecksess] ∧
    ∃ extra, (checksess o st).2.printed = st.printed ++ extra := by
  unfold checksess doRequest
  cases ho : o st.reqCount <;> simp [getKey, doPrint, reqChecksess]
  case json res =>
    cases hs : res.get? "success" <;> simp
    case some s =>
      by_cases hts : s.truthy = true <;> simp [hts]
      cases hb : res.get? "body" <;> simp
      next body =>
        cases hn : body.get? "name" <;> simp
        next name => cases name <;> simp

theorem checksess_ok_inv (o : Nat → RawResp) (st : ClientState) (s : Json) (st2 : ClientState)
    (h : checksess o st = (.ok s, st2)) :
    ∃ res, o st.reqCount = .json res ∧ res.get? "success" = some s ∧
      ((s.truthy = true ∧ ∃ body n, res.get? "body" = some body ∧
          body.get? "name" = some (.str n) ∧
          st2 = { st with reqCount := st.reqCount + 1,
                          requests := st.requests ++ [reqChecksess],
                          printed := st.printed ++ [.str ("You are logged in as: " ++ n)] }) ∨
       (s.truthy = false ∧
          st2 = { st with reqCount := st.reqCount + 1,
                          requests := st.requests ++ [reqChecksess],
                          printed := st.printed ++ [.str ("You are " ++ "not logged in" ++ ".")] })) := by
  unfold checksess doRequest at h
  cases ho : o st.reqCount <;> rw [ho] at h <;> simp [getKey] at h
  case json res =>
    cases hs : res.get? "success" <;> rw [hs] at h <;> simp at h
    case some s2 =>
      by_cases hts : s2.truthy = true
      · rw [if_pos hts] at h
        cases hb : res.get? "body" <;> rw [hb] at h <;> simp at h
        next body =>
          cases hn : body.get? "name" <;> rw [hn] at h <;> simp at h
          next name =>
            cases name <;> simp [doPrint] at h
            next n =>
              obtain ⟨rfl, hst⟩ := h
              exact ⟨res, rfl, hs, Or.inl ⟨hts, body, n, hb, hn,
                by rw [← hst]; simp [reqChecksess]⟩⟩
      · rw [if_neg hts] at h
        simp [doPrint] at h
        obtain ⟨rfl, hst⟩ := h
        exact ⟨res, rfl, hs, Or.inr ⟨by simpa using hts,
          by rw [← hst]; simp [reqChecksess]⟩⟩

theorem checksess_congr (o1 o2 : Nat → RawResp) (st : ClientState)
    (h : o1 st.reqCount = o2 st.reqCount) : checksess o1 st = checksess o2 st := by
  unfold checksess doRequest
  rw [h]

theorem logout_spec (o : Nat → RawResp) (st : ClientState) (res m : Json)
    (ho : o st.reqCount = .json res) (hm : res.get? "msg" = some m) :
    logout o st = (.ok (),
      { st with reqCount := st.reqCount + 1,
                requests := st.requests ++ [reqLogout],
                printed := st.printed ++ [m] }) := by
  simp [logout, doRequest, getKey, doPrint, reqLogout, ho, hm]

theorem logout_trace (o : Nat → RawResp) (st : ClientState) :
    (logout o st).2.reqCount = st.reqCount + 1 ∧
    (logout o st).2.requests = st.requests ++ [reqLogout] ∧
    ∃ extra, (logout o st).2.printed = st.printed ++ extra := by
  unfold logout doRequest
  cases ho : o st.reqCount <;> simp [getKey, doPrint, reqLogout]
  case json res =>
    cases hm : res.get? "msg" <;> simp

theorem logout_ok_inv (o : Nat → RawResp) (st : ClientState) (u : Unit) (st2 : ClientState)
    (h : logout o st = (.ok u, st2)) :
    ∃ res m, o st.reqCount = .json res ∧ res.get? "msg" = some m ∧
      st2 = { st with reqCount := st.reqCount + 1,
                      requests := st.requests ++ [reqLogout],
                      printed := st.printed ++ [m] } := by
  unfold logout doRequest at h
  cases ho : o st.reqCount <;> rw [ho] at h <;> simp [getKey] at h
  case json res =>
    cases hm : res.get? "msg" <;> rw [hm] at h <;> simp [doPrint] at h
    case some m =>
      exact ⟨res, m, rfl, hm, by rw [← h]; simp [reqLogout]⟩

theorem logout_congr (o1 o2 : Nat → RawResp) (st : ClientState)
    (h : o1 st.reqCount = o2 st.reqCount) : logout o1 st = logout o2 st := by
  unfold logout doRequest
  rw [h]

theorem upload_spec (o : Nat → RawResp) (data fname : String) (st : ClientState)
    (res m body name : Json)
    (ho : o st.reqCount = .json res) (hm : res.get? "msg" = some m)
    (hb : res.get? "body" = some body) (hn : body.get? "name" = some name) :
    upload o data fname st = (.ok (),
      { st with reqCount := st.reqCount + 1,
                requests := st.requests ++ [reqUpload data fname],
                printed := st.printed ++ [m, name] }) := by
  simp [upload, doRequest, getKey, doPrint, reqUpload, ho, hm, hb, hn]

theorem upload_noBody (o : Nat → RawResp) (data fname : String) (st : ClientState) (res m : Json)
    (ho : o st.reqCount = .json res) (hm : res.get? "msg" = some m)
    (hb : res.get? "body" = none) :
    upload o data fname st = (.error (.keyError "body"),
      { st with reqCount := st.reqCount + 1,
                requests := st.requests ++ [reqUpload data fname],
                printed := st.printed ++ [m] }) := by
  simp [upload, doRequest, getKey, doPrint, reqUpload, ho, hm, hb]

theorem upload_noName (o : Nat → RawResp) (data fname : String) (st : ClientState)
    (res m body : Json)
    (ho : o st.reqCount = .json res) (hm : res.get? "msg" = some m)
    (hb : res.get? "body" = some body) (hn : body.get? "name" = none) :
    upload o data fname st = (.error (.keyError "name"),
      { st with reqCount := st.reqCount + 1,
                requests := st.requests ++ [reqUpload data fname],
                printed := st.printed ++ [m] }) := by
  simp [upload, doRequest, getKey, doPrint, reqUpload, ho, hm, hb, hn]

theorem upload_trace (o : Nat → RawResp) (data fname : String) (st : ClientState) :
    (upload o data fname st).2.reqCount = st.reqCount + 1 ∧
    (upload o data fname st).2.requests = st.requests ++ [reqUpload data fname] ∧
    ∃ extra, (upload o data fname st).2.printed = st.printed ++ extra := by
  unfold upload doRequest
  cases ho : o st.reqCount <;> simp [getKey, doPrint, reqUpload]
  case json res =>
    cases hm : res.get? "msg" <;> simp
    case some m =>
      cases hb : res.get? "body" <;> simp
      case some body =>
        cases hn : body.get? "name" <;> simp

theorem upload_ok_inv (o : Nat → RawResp) (data fname : String) (st : ClientState) (u : Unit)
    (st2 : ClientState) (h : upload o data fname st = (.ok u, st2)) :
    ∃ res m body name, o st.reqCount = .json res ∧ res.get? "msg" = some m ∧
      res.get? "body" = some body ∧ body.get? "name" = some name ∧
      st2 = { st with reqCount := st.reqCount + 1,
                      requests := st.requests ++ [reqUpload data fname],
                      printed := st.printed ++ [m, name] } := by
  unfold upload doRequest at h
  cases ho : o st.reqCount <;> rw [ho] at h <;> simp [getKey] at h
  case json res =>
    cases hm : res.get? "msg" <;> rw [hm] at h <;> simp at h
    case some m =>
      cases hb : res.get? "body" <;> rw [hb] at h <;> simp [doPrint] at h
      case some body =>
        cases hn : body.get? "name" <;> rw [hn] at h <;> simp [doPrint] at h
        case some name =>
          exact ⟨res, m, body, name, rfl, hm, hb, hn, by rw [← h]; simp [reqUpload]⟩

theorem upload_congr (o1 o2 : Nat → RawResp) (data fname : String) (st : ClientState)
    (h : o1 st.reqCount = o2 st.reqCount) :
    upload o1 data fname st = upload o2 data fname st := by
  unfold upload doRequest
  rw [h]

theorem pyAssertTrue_ok_inv (v : Json) (st : ClientState) (u : Unit) (st2 : ClientState)
    (h : pyAssertTrue v st = (.ok u, st2)) : v.truthy = true ∧ st2 = st := by
  unfold pyAssertTrue at h
  split at h <;> simp_all

theorem pyAssertNot_ok_inv (v : Json) (st : ClientState) (u : Unit) (st2 : ClientState)
    (h : pyAssertNot v st = (.ok u, st2)) : v.truthy = false ∧ st2 = st := by
  unfold pyAssertNot at h
  split at h <;> simp_all

theorem pyAssertTrue_state (v : Json) (st : ClientState) : (pyAssertTrue v st).2 = st := by
  unfold pyAssertTrue
  split <;> rfl

theorem pyAssertNot_state (v : Json) (st : ClientState) : (pyAssertNot v st).2 = st := by
  unfold pyAssertNot
  split <;> rfl

/-- Every run of `mainRun`, fault or not, issues a prefix of the five fixed
requests, in order: no retry, no extra or reordered request. -/
theorem mainRun_prefix (o : Nat → RawResp) :
    ∃ t, (mainRun o).2.requests ++ t = mainRequests := by
  unfold mainRun
  rcases hl : login o emp_creds initState with ⟨r1, stA⟩
  have ht1 := login_trace o emp_creds initState
  rw [hl] at ht1
  obtain ⟨-, hrA, -⟩ := ht1
  dsimp only at hrA
  cases r1 with
  | error f =>
    exact ⟨[reqChecksess, reqUpload uploadData uploadFname, reqLogout, reqChecksess],
      by simp [hrA, initState, mainRequests]⟩
  | ok v1 =>
    dsimp only
    rcases ha1 : pyAssertTrue v1 stA with ⟨r2, stA2⟩
    have hA2 : stA2 = stA := by
      have hps := pyAssertTrue_state v1 stA
      rw [ha1] at hps
      exact hps
    cases r2 with
    | error f =>
      exact ⟨[reqChecksess, reqUpload uploadData uploadFname, reqLogout, reqChecksess],
        by simp [hA2, hrA, initState, mainRequests]⟩
    | ok u1 =>
      dsimp only
      rcases hcs : checksess o stA2 with ⟨r3, stB⟩
      have ht3 := checksess_trace o stA2
      rw [hcs] at ht3
      obtain ⟨-, hrB, -⟩ := ht3
      dsimp only at hrB
      cases r3 with
      | error f =>
        exact ⟨[reqUpload uploadData uploadFname, reqLogout, reqChecksess],
          by simp [hrB, hA2, hrA, initState, mainRequests]⟩
      | ok v2 =>
        dsimp only
        rcases ha2 : pyAssertTrue v2 stB with ⟨r4, stB2⟩
        have hB2 : stB2 = stB := by
          have hps := pyAssertTrue_state v2 stB
          rw [ha2] at hps
          exact hps
        cases r4 with
        | error f =>
          exact ⟨[reqUpload uploadData uploadFname, reqLogout, reqChecksess],
            by simp [hB2, hrB, hA2, hrA, initState, mainRequests]⟩
        | ok u2 =>
          dsimp only
          rcases hu : upload o uploadData uploadFname stB2 with ⟨r5, stC⟩
          have ht5 := upload_trace o uploadData uploadFname stB2
          rw [hu] at ht5
          obtain ⟨-, hrC, -⟩ := ht5
          dsimp only at hrC
          cases r5 with
          | error f =>
            exact ⟨[reqLogout, reqChecksess],
              by simp [hrC, hB2, hrB, hA2, hrA, initState, mainRequests]⟩
          | ok u3 =>
            dsimp only
            rcases hlo : logout o stC with ⟨r6, stD⟩
            have ht6 := logout_trace o stC
            rw [hlo] at ht6
            obtain ⟨-, hrD, -⟩ := ht6
            dsimp only at hrD
            cases r6 with
            | error f =>
              exact ⟨[reqChecksess],
                by simp [hrD, hrC, hB2, hrB, hA2, hrA, initState, mainRequests]⟩
            | ok u4 =>
              dsimp only
              rcases hcs2 : checksess o stD with ⟨r7, stE⟩
              have ht7 := checksess_trace o stD
              rw [hcs2] at ht7
              obtain ⟨-, hrE, -⟩ := ht7
              dsimp only at hrE
              cases r7 with
              | error f =>
                exact ⟨[],
                  by simp [hrE, hrD, hrC, hB2, hrB, hA2, hrA, initState, mainRequests]⟩
              | ok v3 =>
                dsimp only
                refine ⟨[], ?_⟩
                rw [pyAssertNot_state]
                simp [hrE, hrD, hrC, hB2, hrB, hA2, hrA, initState, mainRequests]
/-- Full characterization of a complete (fault-free) run of `mainRun`. -/
theorem mainRun_ok_inv (o : Nat → RawResp) (st : ClientState)
    (h : mainRun o = (.ok (), st)) :
    ∃ res0 m0 s0 res1 s1 body1 n1 res2 m2 body2 name2 res3 m3 res4 s4,
      o 0 = .json res0 ∧ res0.get? "msg" = some m0 ∧ res0.get? "success" = some s0 ∧
        s0.truthy = true ∧
      o 1 = .json res1 ∧ res1.get? "success" = some s1 ∧ s1.truthy = true ∧
        res1.get? "body" = some body1 ∧ body1.get? "name" = some (.str n1) ∧
      o 2 = .json res2 ∧ res2.get? "msg" = some m2 ∧ res2.get? "body" = some body2 ∧
        body2.get? "name" = some name2 ∧
      o 3 = .json res3 ∧ res3.get? "msg" = some m3 ∧
      o 4 = .json res4 ∧ res4.get? "success" = some s4 ∧ s4.truthy = false ∧
      st = ⟨5, mainRequests,
        [m0, .str ("You are logged in as: " ++ n1), m2, name2, m3,
         .str ("You are " ++ "not logged in" ++ ".")]⟩ := by
  unfold mainRun at h
  split at h
  case _ => simp at h
  next x1 v1 stA heq1 =>
    obtain ⟨res0, m0, ho0, hm0, hs0, hstA⟩ := login_ok_inv _ _ _ _ _ heq1
    simp [initState] at ho0 hstA
    subst hstA
    split at h
    case _ => simp at h
    next x2 u1 stA2 heq2 =>
      obtain ⟨hv1, hstA2⟩ := pyAssertTrue_ok_inv _ _ _ _ heq2
      subst hstA2
      split at h
      case _ => simp at h
      next x3 v2 stB heq3 =>
        obtain ⟨res1, ho1, hs1, hdisj1⟩ := checksess_ok_inv _ _ _ _ heq3
        simp at ho1
        split at h
        case _ => simp at h
        next x4 u2 stB2 heq4 =>
          obtain ⟨hv2, hstB2⟩ := pyAssertTrue_ok_inv _ _ _ _ heq4
          subst hstB2
          rcases hdisj1 with ⟨-, body1, n1, hb1, hn1, hstB⟩ | ⟨hts1, -⟩
          · simp at hstB
            subst hstB
            split at h
            case _ => simp at h
            next x5 u3 stC heq5 =>
              obtain ⟨res2, m2, body2, name2, ho2, hm2, hb2, hn2, hstC⟩ :=
                upload_ok_inv _ _ _ _ _ _ heq5
              simp at ho2 hstC
              subst hstC
              split at h
              case _ => simp at h
              next x6 u4 stD heq6 =>
                obtain ⟨res3, m3, ho3, hm3, hstD⟩ := logout_ok_inv _ _ _ _ heq6
                simp at ho3 hstD
                subst hstD
                split at h
                case _ => simp at h
                next x7 v3 stE heq7 =>
                  obtain ⟨res4, ho4, hs4, hdisj4⟩ := checksess_ok_inv _ _ _ _ heq7
                  simp at ho4
                  obtain ⟨hv3, hst⟩ := pyAssertNot_ok_inv _ _ _ _ h
                  rcases hdisj4 with ⟨hts4, -⟩ | ⟨-, hstE⟩
                  · rw [hv3] at hts4
                    cases hts4
                  · simp at hstE
                    subst hstE
                    subst hst
                    refine ⟨res0, m0, v1, res1, v2, body1, n1, res2, m2, body2, name2,
                      res3, m3, res4, v3, ho0, hm0, hs0, hv1, ho1, hs1, hv2, hb1, hn1,
                      ho2, hm2, hb2, hn2, ho3, hm3, ho4, hs4, hv3, ?_⟩
                    simp [mainRequests]
          · rw [hv2] at hts1
            cases hts1
/-- If the login response reports failure, the run stops at the login
assertion: one request only, no checksess, upload or logout. -/
theorem mainRun_login_fail (o : Nat → RawResp) (res m s : Json)
    (ho : o 0 = .json res) (hm : res.get? "msg" = some m)
    (hs : res.get? "success" = some s) (hts : s.truthy = false) :
    mainRun o = (.error .assertionError, ⟨1, [reqLogin emp_creds], [m]⟩) := by
  unfold mainRun
  rw [login_spec o emp_creds initState res m s ho hm hs]
  simp [initState, pyAssertTrue, hts]

/-- A network error on the login request aborts the run at once. -/
theorem mainRun_netError (o : Nat → RawResp) (ho : o 0 = .netError) :
    mainRun o = (.error .netError, ⟨1, [reqLogin emp_creds], []⟩) := by
  unfold mainRun login doRequest
  simp [initState, ho, reqLogin]

/-- A non-JSON body on the login request aborts the run at once. -/
theorem mainRun_badJson (o : Nat → RawResp) (ho : o 0 = .badJson) :
    mainRun o = (.error .jsonError, ⟨1, [reqLogin emp_creds], []⟩) := by
  unfold mainRun login doRequest
  simp [initState, ho, reqLogin]

/-- Runs under two oracles that agree on the (at most five) responses the
script can consult are identical in every observable. -/
theorem mainRun_congr (o1 o2 : Nat → RawResp) (h : ∀ i, i < 5 → o1 i = o2 i) :
    mainRun o1 = mainRun o2 := by
  unfold mainRun
  rw [login_congr o1 o2 emp_creds initState (h 0 (by norm_num))]
  rcases hl : login o2 emp_creds initState with ⟨r1, stA⟩
  have ht1 := login_trace o2 emp_creds initState
  rw [hl] at ht1
  obtain ⟨hcA, -, -⟩ := ht1
  dsimp only at hcA
  simp [initState] at hcA
  cases r1 with
  | error f => rfl
  | ok v1 =>
    dsimp only
    rcases ha1 : pyAssertTrue v1 stA with ⟨r2, stA2⟩
    have hA2 : stA2 = stA := by
      have hps := pyAssertTrue_state v1 stA
      rw [ha1] at hps
      exact hps
    cases r2 with
    | error f => rfl
    | ok u1 =>
      dsimp only
      rw [checksess_congr o1 o2 stA2 (by rw [hA2, hcA]; exact h 1 (by norm_num))]
      rcases hcs : checksess o2 stA2 with ⟨r3, stB⟩
      have ht3 := checksess_trace o2 stA2
      rw [hcs] at ht3
      obtain ⟨hcB, -, -⟩ := ht3
      dsimp only at hcB
      rw [hA2, hcA] at hcB
      cases r3 with
      | error f => rfl
      | ok v2 =>
        dsimp only
        rcases ha2 : pyAssertTrue v2 stB with ⟨r4, stB2⟩
        have hB2 : stB2 = stB := by
          have hps := pyAssertTrue_state v2 stB
          rw [ha2] at hps
          exact hps
        cases r4 with
        | error f => rfl
        | ok u2 =>
          dsimp only
          rw [upload_congr o1 o2 uploadData uploadFname stB2 (by rw [hB2, hcB]; exact h 2 (by norm_num))]
          rcases hu : upload o2 uploadData uploadFname stB2 with ⟨r5, stC⟩
          have ht5 := upload_trace o2 uploadData uploadFname stB2
          rw [hu] at ht5
          obtain ⟨hcC, -, -⟩ := ht5
          dsimp only at hcC
          rw [hB2, hcB] at hcC
          cases r5 with
          | error f => rfl
          | ok u3 =>
            dsimp only
            rw [logout_congr o1 o2 stC (by rw [hcC]; exact h 3 (by norm_num))]
            rcases hlo : logout o2 stC with ⟨r6, stD⟩
            have ht6 := logout_trace o2 stC
            rw [hlo] at ht6
            obtain ⟨hcD, -, -⟩ := ht6
            dsimp only at hcD
            rw [hcC] at hcD
            cases r6 with
            | error f => rfl
            | ok u4 =>
              dsimp only
              rw [checksess_congr o1 o2 stD (by rw [hcD]; exact h 4 (by norm_num))]

/- Claim theorems. -/

/-- C2: for every credentials value and JSON response carrying `msg` and
`success`, `login` POSTs the credentials as JSON to `/login`, prints the
message and returns the success flag; and whenever that flag is falsy the
driver's assertion stops the script right after the login call. -/
theorem C2_login_contract :
    (∀ (o : Nat → RawResp) (creds : Json) (st : ClientState) (res m s : Json),
      o st.reqCount = .json res → res.get? "msg" = some m → res.get? "success" = some s →
      login o creds st = (.ok s,
        { st with reqCount := st.reqCount + 1,
                  requests := st.requests ++ [reqLogin creds],
                  printed := st.printed ++ [m] })) ∧
    (∀ (o : Nat → RawResp) (res m s : Json),
      o 0 = .json res → res.get? "msg" = some m → res.get? "success" = some s →
      s.truthy = false →
      mainRun o = (.error .assertionError, ⟨1, [reqLogin emp_creds], [m]⟩)) :=
  ⟨login_spec, mainRun_login_fail⟩

/-- Witness for C2 at concrete oracles. -/
theorem C2_witness :
    login oracleGood Json.null initState = (.ok (Json.bool true),
      ⟨1, [reqLogin Json.null], [Json.str "Welcome back"]⟩) ∧
    mainRun oracleBadLogin =
      (.error .assertionError, ⟨1, [reqLogin emp_creds], [Json.str "Bad password"]⟩) :=
  ⟨C2_login_contract.1 oracleGood Json.null initState loginRespOk (Json.str "Welcome back")
      (Json.bool true) rfl (by decide) (by decide),
   C2_login_contract.2 oracleBadLogin loginRespNo (Json.str "Bad password") (Json.bool false)
      rfl (by decide) (by decide) (by decide)⟩

/-- C3: `checksess` GETs `/checksess` and returns the response's success
flag; when it is truthy it prints the session's display name (the body's
`name` field, in the line "You are logged in as: " followed by the name),
otherwise it prints the "You are not logged in." line; the state change is
exactly the recorded request and the print, nothing else. -/
theorem C3_checksess_contract :
    (∀ (o : Nat → RawResp) (st : ClientState) (res s body : Json) (n : String),
      o st.reqCount = .json res → res.get? "success" = some s → s.truthy = true →
      res.get? "body" = some body → body.get? "name" = some (.str n) →
      checksess o st = (.ok s,
        { st with reqCount := st.reqCount + 1,
                  requests := st.requests ++ [reqChecksess],
                  printed := st.printed ++ [.str ("You are logged in as: " ++ n)] })) ∧
    (∀ (o : Nat → RawResp) (st : ClientState) (res s : Json),
      o st.reqCount = .json res → res.get? "success" = some s → s.truthy = false →
      checksess o st = (.ok s,
        { st with reqCount := st.reqCount + 1,
                  requests := st.requests ++ [reqChecksess],
                  printed := st.printed ++ [.str ("You are " ++ "not logged in" ++ ".")] })) :=
  ⟨checksess_spec_ok, checksess_spec_no⟩

/-- Witness for C3 at concrete oracles. -/
theorem C3_witness :
    checksess oracleSess initState = (.ok (Json.bool true),
      ⟨1, [reqChecksess], [Json.str "You are logged in as: Alice"]⟩) ∧
    checksess oracleLoggedOut initState = (.ok (Json.bool false),
      ⟨1, [reqChecksess], [Json.str "You are not logged in."]⟩) :=
  ⟨C3_checksess_contract.1 oracleSess initState sessRespOk (Json.bool true)
      (Json.obj (.ofList [("name", Json.str "Alice")])) "Alice" rfl (by decide) (by decide)
      (by decide) (by decide),
   C3_checksess_contract.2 oracleLoggedOut initState sessRespNo (Json.bool false) rfl
      (by decide) (by decide)⟩

/-- C4: for every byte content and filename (special characters included),
`upload` POSTs a multipart form whose `file` field carries exactly that
filename and content to `/upload`, then prints the response message and the
stored artifact's name taken from the response body. -/
theorem C4_upload_contract (o : Nat → RawResp) (data fname : String) (st : ClientState)
    (res m body name : Json)
    (ho : o st.reqCount = .json res) (hm : res.get? "msg" = some m)
    (hb : res.get? "body" = some body) (hn : body.get? "name" = some name) :
    upload o data fname st = (.ok (),
      { st with reqCount := st.reqCount + 1,
                requests := st.requests ++ [reqUpload data fname],
                printed := st.printed ++ [m, name] }) :=
  upload_spec o data fname st res m body name ho hm hb hn

/-- Witness for C4: the driver's own special-character filename. -/
theorem C4_witness :
    upload oracleUpload uploadData uploadFname initState = (.ok (),
      ⟨1, [reqUpload uploadData uploadFname],
       [Json.str "uploaded", Json.str "file123.bin"]⟩) :=
  C4_upload_contract oracleUpload uploadData uploadFname initState uploadRespOk
    (Json.str "uploaded") (Json.obj (.ofList [("name", Json.str "file123.bin")]))
    (Json.str "file123.bin") rfl (by decide) (by decide) (by decide)

/-- C7: `logout` POSTs to `/logout`, prints the response message and
returns unit; the response's success flag is never consulted — the same
equation holds whatever that flag is, even when it is false. -/
theorem C7_logout_contract (o : Nat → RawResp) (st : ClientState) (res m : Json)
    (ho : o st.reqCount = .json res) (hm : res.get? "msg" = some m) :
    logout o st = (.ok (),
      { st with reqCount := st.reqCount + 1,
                requests := st.requests ++ [reqLogout],
                printed := st.printed ++ [m] }) :=
  logout_spec o st res m ho hm

/-- Witness for C7: a logout response with a false success flag still
yields a normal return. -/
theorem C7_witness :
    logout oracleLogoutFail initState = (.ok (), ⟨1, [reqLogout], [Json.str "bye"]⟩) :=
  C7_logout_contract oracleLogoutFail initState logoutRespFail (Json.str "bye") rfl (by decide)

/-- C8: any expectation violation aborts the run at once with no retry: a
network error or non-JSON body on the login request propagates as the
corresponding fault, a false login success flag trips the assertion, and in
each case only the login request was issued — no checksess, upload or
logout; moreover every run's request list is a prefix of the five fixed
requests, so no request is ever retried. -/
theorem C8_fault_propagation :
    (∀ o : Nat → RawResp, o 0 = .netError →
      mainRun o = (.error .netError, ⟨1, [reqLogin emp_creds], []⟩)) ∧
    (∀ o : Nat → RawResp, o 0 = .badJson →
      mainRun o = (.error .jsonError, ⟨1, [reqLogin emp_creds], []⟩)) ∧
    (∀ (o : Nat → RawResp) (res m s : Json),
      o 0 = .json res → res.get? "msg" = some m → res.get? "success" = some s →
      s.truthy = false →
      mainRun o = (.error .assertionError, ⟨1, [reqLogin emp_creds], [m]⟩)) ∧
    (∀ o : Nat → RawResp, ∃ t, (mainRun o).2.requests ++ t = mainRequests) :=
  ⟨mainRun_netError, mainRun_badJson, mainRun_login_fail, mainRun_prefix⟩

/-- Witness for C8 at concrete failing oracles. -/
theorem C8_witness :
    mainRun oracleNetDown = (.error .netError, ⟨1, [reqLogin emp_creds], []⟩) ∧
    mainRun oracleBadBody = (.error .jsonError, ⟨1, [reqLogin emp_creds], []⟩) ∧
    mainRun oracleBadLogin =
      (.error .assertionError, ⟨1, [reqLogin emp_creds], [Json.str "Bad password"]⟩) ∧
    (∃ t, (mainRun oracleNetDown).2.requests ++ t = mainRequests) :=
  ⟨C8_fault_propagation.1 oracleNetDown rfl,
   C8_fault_propagation.2.1 oracleBadBody rfl,
   C8_fault_propagation.2.2.1 oracleBadLogin loginRespNo (Json.str "Bad password")
     (Json.bool false) rfl (by decide) (by decide) (by decide),
   C8_fault_propagation.2.2.2 oracleNetDown⟩

/-- C9: `upload` never inspects the success flag: with `msg` present it
unconditionally reads `body` and then `name`, so any response without a
`body` mapping (for example a failure response of shape success/msg), or
whose body lacks a `name` key, raises an unhandled key lookup fault. -/
theorem C9_upload_ignores_success :
    (∀ (o : Nat → RawResp) (data fname : String) (st : ClientState) (res m : Json),
      o st.reqCount = .json res → res.get? "msg" = some m → res.get? "body" = none →
      upload o data fname st = (.error (.keyError "body"),
        { st with reqCount := st.reqCount + 1,
                  requests := st.requests ++ [reqUpload data fname],
                  printed := st.printed ++ [m] })) ∧
    (∀ (o : Nat → RawResp) (data fname : String) (st : ClientState) (res m body : Json),
      o st.reqCount = .json res → res.get? "msg" = some m → res.get? "body" = some body →
      body.get? "name" = none →
      upload o data fname st = (.error (.keyError "name"),
        { st with reqCount := st.reqCount + 1,
                  requests := st.requests ++ [reqUpload data fname],
                  printed := st.printed ++ [m] })) :=
  ⟨upload_noBody, upload_noName⟩

/-- Witness for C9: a success=false response without `body`, and a response
whose body has no `name`, both fault after printing the message. -/
theorem C9_witness :
    upload oracleUploadNo uploadData uploadFname initState = (.error (.keyError "body"),
      ⟨1, [reqUpload uploadData uploadFname], [Json.str "upload denied"]⟩) ∧
    upload oracleUploadNoName uploadData uploadFname initState = (.error (.keyError "name"),
      ⟨1, [reqUpload uploadData uploadFname], [Json.str "stored"]⟩) :=
  ⟨C9_upload_ignores_success.1 oracleUploadNo uploadData uploadFname initState uploadRespNo
      (Json.str "upload denied") rfl (by decide) (by decide),
   C9_upload_ignores_success.2 oracleUploadNoName uploadData uploadFname initState
      uploadRespNoName (Json.str "stored") (Json.obj (.ofList [("id", Json.num 7)])) rfl
      (by decide) (by decide) (by decide)⟩

/-- C10: the client is deterministic — two runs receiving the same
responses (oracles that agree on the at most five consulted indices) issue
the same requests, print the same output and end with the same outcome. -/
theorem C10_deterministic (o1 o2 : Nat → RawResp) (h : ∀ i, i < 5 → o1 i = o2 i) :
    mainRun o1 = mainRun o2 :=
  mainRun_congr o1 o2 h

/-- Witness for C10: `oracleGoodTail` differs from `oracleGood` beyond the
consulted indices yet yields the identical run. -/
theorem C10_witness : mainRun oracleGood = mainRun oracleGoodTail :=
  C10_deterministic oracleGood oracleGoodTail (fun i hi => by simp [oracleGoodTail, hi])

/-- C5: the credentials value is the single constant object built at
startup, its password field is the hex-encoded SHA-256 digest of the
plaintext "password" (checked against the known digest), and every
JSON-body POST any run of the script ever issues carries exactly this
object to `/login` — no operation ever sends a modified credentials
value. -/
theorem C5_creds_immutable :
    emp_creds = Json.obj (.ofList [("email", .str "adowley0@myspace.com"),
      ("password", .str (sha256hex "password"))]) ∧
    sha256hex "password" =
      "5e884898da28047151d0e56f8dc6292773603d0d6aabbdd62a11ef721d1542d8" ∧
    (∀ (o : Nat → RawResp) (p : String) (j : Json),
      HttpRequest.post p (Payload.jsonBody j) ∈ (mainRun o).2.requests →
      j = emp_creds ∧ p = base_url ++ "/login") := by
  refine ⟨rfl, by decide, ?_⟩
  intro o p j hmem
  obtain ⟨t, ht⟩ := mainRun_prefix o
  have hmem2 : HttpRequest.post p (Payload.jsonBody j) ∈ mainRequests := by
    rw [← ht]
    exact List.mem_append_left _ hmem
  simp [mainRequests, reqLogin, reqChecksess, reqUpload, reqLogout] at hmem2
  exact ⟨hmem2.2, hmem2.1⟩

/-- Witness for C5: the login request of the all-good run. -/
theorem C5_witness :
    (HttpRequest.post (base_url ++ "/login") (Payload.jsonBody emp_creds) ∈
      (mainRun oracleGood).2.requests) ∧
    (emp_creds = emp_creds ∧ base_url ++ "/login" = base_url ++ "/login") :=
  ⟨by decide, C5_creds_immutable.2.2 oracleGood (base_url ++ "/login") emp_creds (by decide)⟩

/-- C6: the configured base URL is `http://localhost:3000/api/v1`, and every
request any run issues is one of the four endpoint requests obtained by
appending `/login`, `/checksess`, `/upload` or `/logout` to that single
base URL, with the respective method and payload. -/
theorem C6_urls :
    base_url = "http://localhost:3000/api/v1" ∧
    (∀ (o : Nat → RawResp) (req : HttpRequest), req ∈ (mainRun o).2.requests →
      req = .post (base_url ++ "/login") (.jsonBody emp_creds) ∨
      req = .get (base_url ++ "/checksess") ∨
      req = .post (base_url ++ "/upload") (.multipart "file" uploadFname uploadData) ∨
      req = .post (base_url ++ "/logout") .empty) := by
  refine ⟨rfl, ?_⟩
  intro o req hmem
  obtain ⟨t, ht⟩ := mainRun_prefix o
  have hmem2 : req ∈ mainRequests := by
    rw [← ht]
    exact List.mem_append_left _ hmem
  simp [mainRequests, reqLogin, reqChecksess, reqUpload, reqLogout] at hmem2
  tauto

/-- Witness for C6: the checksess request of the all-good run. -/
theorem C6_witness :
    (reqChecksess ∈ (mainRun oracleGood).2.requests) ∧
    (reqChecksess = .post (base_url ++ "/login") (.jsonBody emp_creds) ∨
     reqChecksess = .get (base_url ++ "/checksess") ∨
     reqChecksess = .post (base_url ++ "/upload") (.multipart "file" uploadFname uploadData) ∨
     reqChecksess = .post (base_url ++ "/logout") .empty) :=
  ⟨by decide, C6_urls.2 oracleGood reqChecksess (by decide)⟩

/-- C1 counterexample: in the all-good run the post-login session check
does not return the authenticated principal's name — it returns the
response's success flag. Concretely, the run completes, the checksess
response names the principal "Alice", yet the value the session check
returns is the boolean true, which is not the string "Alice". -/
theorem C1_counterexample :
    mainRun oracleGood = (.ok (), ⟨5, mainRequests,
      [.str "Welcome back", .str "You are logged in as: Alice", .str "uploaded",
       .str "file123.bin", .str "bye", .str "You are not logged in."]⟩) ∧
    oracleGood 1 = .json sessRespOk ∧
    sessRespOk.get? "body" = some (Json.obj (.ofList [("name", Json.str "Alice")])) ∧
    (checksess oracleGood ⟨1, [reqLogin emp_creds], [Json.str "Welcome back"]⟩).1 =
      Except.ok (Json.bool true) ∧
    Json.bool true ≠ Json.str "Alice" :=
  ⟨by rfl, rfl, by decide, by rfl, by decide⟩

/-- C1 (amended: the session check prints, rather than returns, the
authenticated principal's name — its returned value is the success flag):
in every fault-free run the requests are exactly login, checksess, upload,
logout, checksess in that order; the first session check's success flag is
truthy and the banner with the principal's name is printed; the final
session check's success flag is falsy and the not-logged-in line is
printed: the session-check results go true then false exactly once, with
no other session check in between. -/
theorem C1_session_roundtrip (o : Nat → RawResp) (st : ClientState)
    (h : mainRun o = (.ok (), st)) :
    st.requests = mainRequests ∧
    (∃ res1 s1, o 1 = .json res1 ∧ res1.get? "success" = some s1 ∧ s1.truthy = true ∧
      ∃ n, Json.str ("You are logged in as: " ++ n) ∈ st.printed) ∧
    (∃ res4 s4, o 4 = .json res4 ∧ res4.get? "success" = some s4 ∧ s4.truthy = false ∧
      Json.str ("You are " ++ "not logged in" ++ ".") ∈ st.printed) := by
  obtain ⟨res0, m0, s0, res1, s1, body1, n1, res2, m2, body2, name2, res3, m3, res4, s4,
    ho0, hm0, hs0, hts0, ho1, hs1, hts1, hb1, hn1, ho2, hm2, hb2, hn2, ho3, hm3,
    ho4, hs4, hts4, hst⟩ := mainRun_ok_inv o st h
  subst hst
  exact ⟨rfl, ⟨res1, s1, ho1, hs1, hts1, n1, by simp⟩,
         ⟨res4, s4, ho4, hs4, hts4, by simp⟩⟩

/-- Witness for C1 at the all-good oracle. -/
theorem C1_witness :
    (⟨5, mainRequests,
      [Json.str "Welcome back", Json.str "You are logged in as: Alice", Json.str "uploaded",
       Json.str "file123.bin", Json.str "bye", Json.str "You are not logged in."]⟩ :
        ClientState).requests = mainRequests ∧
    (∃ res1 s1, oracleGood 1 = RawResp.json res1 ∧ res1.get? "success" = some s1 ∧
      s1.truthy = true ∧ ∃ n, Json.str ("You are logged in as: " ++ n) ∈
        [Json.str "Welcome back", Json.str "You are logged in as: Alice",
         Json.str "uploaded", Json.str "file123.bin", Json.str "bye",
         Json.str "You are not logged in."]) ∧
    (∃ res4 s4, oracleGood 4 = RawResp.json res4 ∧ res4.get? "success" = some s4 ∧
      s4.truthy = false ∧ Json.str ("You are " ++ "not logged in" ++ ".") ∈
        [Json.str "Welcome back", Json.str "You are logged in as: Alice",
         Json.str "uploaded", Json.str "file123.bin", Json.str "bye",
         Json.str "You are not logged in."]) :=
  C1_session_roundtrip oracleGood _ (by rfl)
